import Mathlib

/-!
# Verification of the cat-platformer simulation core

Shallow embedding of `src/cat_platformer/game.py` (classes `Cat`, `Obstacle`,
`Bullet`, `Game`) and proofs about the collision/scoring engine, the actor
state machine and the difficulty functions.

Modelling conventions:
* pygame `Rect` fields are machine ints; we use `Int`.
* The Python float quantities that matter to the claims are exactly
  representable (`JUMP_FORCE * 0.5 = -10`, `JUMP_FORCE * 0.9 = -18`,
  speeds such as `7.2` and jitters in `[-0.5, 0.5]`); velocities are kept as
  `Int` (they are integral in every reachable state we reason about) and
  obstacle speeds / difficulty speeds as `ℚ`.
* Assigning a float to a pygame rect attribute truncates toward zero;
  `ratTrunc` models that.
* Rendering, particles, sounds and popups are presentation-only collaborators
  and are omitted; the random draws (obstacle type, placement, speed jitter)
  and the clock are external inputs, passed in as parameters.
-/

namespace CatGame

/-! ## Constants (`game.py` lines 29-45) -/

def SCREEN_WIDTH : Int := 800

def GROUND_LEVEL : Int := 500

def GRAVITY : Int := 1

def JUMP_FORCE : Int := -20

def OBSTACLE_SPEED : ℚ := 7

def ANIMATION_SPEED : Nat := 6

def BULLET_SPEED : Int := 15

def SHOOT_THRESHOLD : Nat := 20

def DIFFICULTY_INCREASE_RATE : ℚ := mkRat 1 5

def MAX_OBSTACLE_SPEED : ℚ := 15

def MIN_OBSTACLE_FREQUENCY : Int := 800

def SLIDE_DURATION : Nat := 45

def SLIDE_COOLDOWN_DURATION : Nat := 30

/-- Addition on ℚ, written out through `mkRat` so that terms evaluate by
kernel reduction (the library's `Rat.add` is sealed); equal to `+` by
`qAdd_eq` below. -/
def qAdd (a b : ℚ) : ℚ :=
  mkRat (a.num * (b.den : Int) + b.num * (a.den : Int)) (a.den * b.den)

/-- Subtraction on ℚ through `mkRat`; equal to `-` by `qSub_eq` below. -/
def qSub (a b : ℚ) : ℚ :=
  mkRat (a.num * (b.den : Int) - b.num * (a.den : Int)) (a.den * b.den)

/-- Multiplication on ℚ through `mkRat`; equal to `*` by `qMul_eq` below. -/
def qMul (a b : ℚ) : ℚ := mkRat (a.num * b.num) (a.den * b.den)

/-- The canonical embedding `Int → ℚ` through `mkRat`. -/
def qOfInt (n : Int) : ℚ := mkRat n 1

/-- Truncation toward zero, as applied when a Python float is stored into a
pygame rect attribute. -/
def ratTrunc (q : ℚ) : Int :=
  if 0 ≤ q.num then q.num / (q.den : Int) else -((-q.num) / (q.den : Int))

/-! ## Rectangles (pygame `Rect`) -/

structure Rect where
  x : Int
  y : Int
  w : Int
  h : Int
deriving DecidableEq

def Rect.left (r : Rect) : Int := r.x

def Rect.right (r : Rect) : Int := r.x + r.w

def Rect.top (r : Rect) : Int := r.y

def Rect.bottom (r : Rect) : Int := r.y + r.h

def Rect.centerx (r : Rect) : Int := r.x + r.w / 2

def Rect.centery (r : Rect) : Int := r.y + r.h / 2

/-- `rect.bottom = b` keeps the height and moves `y`. -/
def Rect.setBottom (r : Rect) (b : Int) : Rect := { r with y := b - r.h }

/-- `rect.height = h` keeps the top-left corner. -/
def Rect.setHeight (r : Rect) (h : Int) : Rect := { r with h := h }

/-- pygame's `colliderect` overlap test. -/
def Rect.colliderect (a b : Rect) : Bool :=
  decide (a.x < b.x + b.w) && decide (a.y < b.y + b.h) &&
  decide (b.x < a.x + a.w) && decide (b.y < a.y + a.h)

/-! ## Actor (`class Cat`, lines 1496-1843) -/

/-- Animation-state tags, the keys of `self.animations`. -/
inductive Anim
  | idle
  | run
  | jump
  | fall
  | dead
  | slide
deriving DecidableEq

/-- Number of frames of each loaded animation; comes from the image assets on
disk, hence a parameter of the model.  (The source guarantees every animation
list is nonempty via a fallback frame.) -/
def FrameCount : Type := Anim → Nat

/-- The simulation state of `Cat`.  `slide_duration` and
`slide_cooldown_duration` are set once in `__init__` and never written again,
so they are the constants `SLIDE_DURATION` / `SLIDE_COOLDOWN_DURATION`. -/
structure Cat where
  rect : Rect
  normal_height : Int
  normal_bottom : Int
  velocity_y : Int
  on_ground : Bool
  is_dead : Bool
  double_jumps_available : Nat
  shots_available : Nat
  is_sliding : Bool
  slide_timer : Nat
  slide_cooldown : Nat
  current_animation : Anim
  frame_index : Nat
  animation_timer : Nat
deriving DecidableEq

/-- `Cat.__init__`: the sprite rect comes from the loaded image (external),
placed with `bottomleft = (100, GROUND_LEVEL)`. -/
def Cat.init (catW catH : Int) : Cat where
  rect := { x := 100, y := GROUND_LEVEL - catH, w := catW, h := catH }
  normal_height := catH
  normal_bottom := GROUND_LEVEL
  velocity_y := 0
  on_ground := true
  is_dead := false
  double_jumps_available := 0
  shots_available := 0
  is_sliding := false
  slide_timer := 0
  slide_cooldown := 0
  current_animation := Anim.idle
  frame_index := 0
  animation_timer := 0

/-- Exact-arithmetic model of `int(self.normal_height * 0.6)` (line 1630). -/
def shrinkHeight (h : Int) : Int := 3 * h / 5

/-- `Cat.slide` (lines 1607-1644); particles and sound are presentation. -/
def Cat.slide (c : Cat) : Cat :=
  if c.is_dead = true ∨ c.is_sliding = true ∨ c.on_ground = false ∨
      0 < c.slide_cooldown then
    c
  else
    { c with
      is_sliding := true
      slide_timer := 0
      current_animation := Anim.slide
      frame_index := 0
      normal_height := c.rect.h
      normal_bottom := c.rect.bottom
      rect := (c.rect.setHeight (shrinkHeight c.rect.h)).setBottom c.rect.bottom }

/-- `Cat.die` (lines 1646-1656); `JUMP_FORCE * 0.5 = -10` exactly. -/
def Cat.die (c : Cat) : Cat :=
  if c.is_dead = true then c
  else
    { c with
      is_dead := true
      current_animation := Anim.dead
      frame_index := 0
      velocity_y := JUMP_FORCE / 2
      is_sliding := false
      rect := c.rect.setHeight c.normal_height }

/-- `Cat.update_animation` (lines 1658-1665). -/
def Cat.updateAnimation (fc : FrameCount) (c : Cat) : Cat :=
  if ANIMATION_SPEED ≤ c.animation_timer + 1 then
    { c with
      animation_timer := 0
      frame_index := (c.frame_index + 1) % fc c.current_animation }
  else
    { c with animation_timer := c.animation_timer + 1 }

/-- Sliding bookkeeping at the top of `Cat.update` (lines 1675-1682). -/
def Cat.updateSlide (c : Cat) : Cat :=
  if c.is_sliding = true then
    if SLIDE_DURATION ≤ c.slide_timer + 1 then
      { c with
        slide_timer := c.slide_timer + 1
        is_sliding := false
        slide_cooldown := SLIDE_COOLDOWN_DURATION
        rect := c.rect.setHeight c.normal_height }
    else
      { c with slide_timer := c.slide_timer + 1 }
  else c

/-- Slide-cooldown decrement (lines 1684-1686). -/
def Cat.updateCooldown (c : Cat) : Cat :=
  if 0 < c.slide_cooldown then { c with slide_cooldown := c.slide_cooldown - 1 }
  else c

/-- Gravity and the fall-animation switch (lines 1688-1695). -/
def Cat.applyGravity (c : Cat) : Cat :=
  if c.on_ground = true then c
  else
    let c := { c with velocity_y := c.velocity_y + GRAVITY }
    if 0 < c.velocity_y ∧ c.current_animation ≠ Anim.fall then
      { c with current_animation := Anim.fall, frame_index := 0 }
    else c

/-- Position integration (line 1698). -/
def Cat.integrate (c : Cat) : Cat :=
  { c with rect := { c.rect with y := c.rect.y + c.velocity_y } }

/-- Ground clamping and landing animation (lines 1700-1709). -/
def Cat.groundClamp (c : Cat) : Cat :=
  if GROUND_LEVEL ≤ c.rect.bottom then
    let c := { c with
      rect := c.rect.setBottom GROUND_LEVEL
      velocity_y := 0
      on_ground := true }
    if c.is_sliding = false ∧ c.current_animation ≠ Anim.idle ∧
        c.current_animation ≠ Anim.run then
      { c with current_animation := Anim.run, frame_index := 0 }
    else c
  else c

/-- `Cat.update` (lines 1667-1712). -/
def Cat.update (fc : FrameCount) (c : Cat) : Cat :=
  if c.is_dead = true then
    Cat.updateAnimation fc
      { c with
        velocity_y := c.velocity_y + GRAVITY
        rect := { c.rect with y := c.rect.y + (c.velocity_y + GRAVITY) } }
  else
    Cat.updateAnimation fc
      (Cat.groundClamp (Cat.integrate (Cat.applyGravity
        (Cat.updateCooldown (Cat.updateSlide c)))))

/-- `Cat.jump` (lines 1788-1834); `JUMP_FORCE * 0.9 = -18` exactly. -/
def Cat.jump (c : Cat) : Cat :=
  if c.is_dead = true then c
  else if c.on_ground = true then
    { c with
      velocity_y := JUMP_FORCE
      on_ground := false
      current_animation := Anim.jump
      frame_index := 0
      is_sliding := false
      rect := (c.rect.setHeight c.normal_height).setBottom c.normal_bottom }
  else if 0 < c.double_jumps_available then
    { c with
      double_jumps_available := c.double_jumps_available - 1
      velocity_y := JUMP_FORCE * 9 / 10
      current_animation := Anim.jump
      frame_index := 0 }
  else c

/-- `Cat.shoot` (lines 1836-1843): `(new state, success)`. -/
def Cat.shoot (c : Cat) : Cat × Bool :=
  if c.is_dead = true ∨ c.shots_available = 0 then (c, false)
  else ({ c with shots_available := c.shots_available - 1 }, true)

/-! ## Obstacles (`class Obstacle`, lines 1847-2230) -/

/-- The enumerated obstacle types (lines 1876-1887). -/
inductive ObstacleType
  | stone
  | cactus
  | bush
  | balloon
  | low_balloon
  | glow_balloon
  | glowing_obstacle
deriving DecidableEq

/-- Simulation state of an obstacle.  The rect (size band and vertical
placement) is drawn from type-specific random ranges at spawn time; the
color-cycling fields are presentation-only. -/
structure Obstacle where
  type : ObstacleType
  rect : Rect
  speed : ℚ
  already_passed : Bool
deriving DecidableEq

/-- Only `_setup_low_balloon_obstacle` sets `requires_slide` (line 1976);
`hasattr` is false for every other type. -/
def Obstacle.requires_slide (o : Obstacle) : Bool :=
  decide (o.type = ObstacleType.low_balloon)

/-- The movement part of `Obstacle.update` (line 2094):
`self.rect.x -= self.speed` with float-to-rect truncation. -/
def Obstacle.updateMoved (o : Obstacle) : Obstacle :=
  { o with rect := { o.rect with x := ratTrunc (qSub (qOfInt o.rect.x) o.speed) } }

/-- All obstacles advance, then any fully off the left edge is killed
(lines 2091-2101). -/
def moveObstacles (l : List Obstacle) : List Obstacle :=
  (l.map Obstacle.updateMoved).filter (fun o => decide (0 ≤ o.rect.right))

/-- `Bullet.update` (lines 96-101): move right, kill past the right edge. -/
def moveBullets (l : List Rect) : List Rect :=
  (l.map (fun b => { b with x := b.x + BULLET_SPEED })).filter
    (fun b => decide (b.left ≤ SCREEN_WIDTH))

/-! ## Cat-obstacle collision resolution (`Cat.check_collisions`,
lines 1714-1786) -/

/-- The scan over `game.obstacles`.  Returns the mutated cat, the surviving
obstacles and whether a fatal collision happened.  A consumed power-up or a
fatal hit makes the method `return`, so the remaining obstacles are not
scanned this frame. -/
def catCollideList (c : Cat) : List Obstacle → Cat × List Obstacle × Bool
  | [] => (c, [], false)
  | o :: rest =>
    if Rect.colliderect c.rect o.rect = false then
      let r := catCollideList c rest
      (r.1, o :: r.2.1, r.2.2)
    else if o.type = ObstacleType.glowing_obstacle then
      ({ c with shots_available := c.shots_available + 1 }, rest, false)
    else if o.requires_slide = true ∧ c.is_sliding = true then
      let r := catCollideList c rest
      (r.1, o :: r.2.1, r.2.2)
    else if o.type = ObstacleType.glow_balloon then
      ({ c with double_jumps_available := c.double_jumps_available + 1 },
        rest, false)
    else
      (Cat.die c, o :: rest, true)

/-- `Cat.check_collisions`: a dead cat scans nothing (line 1716). -/
def catCheckCollisions (c : Cat) (obs : List Obstacle) :
    Cat × List Obstacle × Bool :=
  if c.is_dead = true then (c, obs, false) else catCollideList c obs

/-! ## Difficulty (`Game.update_difficulty`, lines 2663-2675) -/

/-- `min(OBSTACLE_SPEED + (score // 10) * DIFFICULTY_INCREASE_RATE,
MAX_OBSTACLE_SPEED)`. -/
def difficultySpeed (score : Nat) : ℚ :=
  min (qAdd OBSTACLE_SPEED
      (qMul (qOfInt (Int.ofNat (score / 10))) DIFFICULTY_INCREASE_RATE))
    MAX_OBSTACLE_SPEED

/-- `max(1500 - (score // 5) * 50, MIN_OBSTACLE_FREQUENCY)`. -/
def spawnInterval (score : Nat) : Int :=
  max (1500 - Int.ofNat (score / 5) * 50) MIN_OBSTACLE_FREQUENCY

/-! ## Game state (`class Game`) -/

/-- The simulation-relevant state of `Game`.  `stored_high_score` is the
content of the external store `assets/highscore.txt`;
`combo_counter` is set in `__init__` (line 2485). -/
structure Game where
  cat : Cat
  obstacles : List Obstacle
  bullets : List Rect
  score : Nat
  combo_counter : Nat
  high_score : Nat
  game_over : Bool
  current_speed : ℚ
  obstacle_frequency : Int
  last_obstacle : Int
  last_shot_score : Nat
  stored_high_score : Nat
deriving DecidableEq

/-- External inputs fixed at startup: the loaded cat sprite size and the
per-animation frame counts. -/
structure Assets where
  frameCount : FrameCount
  catW : Int
  catH : Int

/-- `Game.__init__` (lines 2444-2514): `stored` is what `_load_high_score`
returns from the external store, `now` is `pygame.time.get_ticks()`. -/
def Game.init (A : Assets) (stored : Nat) (now : Int) : Game where
  cat := Cat.init A.catW A.catH
  obstacles := []
  bullets := []
  score := 0
  combo_counter := 0
  high_score := stored
  game_over := false
  current_speed := OBSTACLE_SPEED
  obstacle_frequency := 1500
  last_obstacle := now
  last_shot_score := 0
  stored_high_score := stored

/-- `Game.update_difficulty` (lines 2663-2675). -/
def Game.update_difficulty (g : Game) : Game :=
  { g with
    current_speed := difficultySpeed g.score
    obstacle_frequency := spawnInterval g.score }

/-- `Game.add_score` (lines 2728-2764): bump the score, award a shot when the
threshold is crossed, recompute the difficulty. -/
def Game.add_score (g : Game) (points : Nat) : Game :=
  let g := { g with score := g.score + points }
  let g :=
    if g.last_shot_score + SHOOT_THRESHOLD ≤ g.score then
      { g with
        cat := { g.cat with shots_available := g.cat.shots_available + 1 }
        last_shot_score := g.score }
    else g
  Game.update_difficulty g

/-- The body of the `update_score` loop (lines 2723-2726) for one obstacle. -/
def Game.scoreStep (g : Game) (o : Obstacle) : Game × Obstacle :=
  if o.rect.right < g.cat.rect.left ∧ o.already_passed = false then
    (Game.add_score g 1, { o with already_passed := true })
  else (g, o)

/-- Sequential scan of `update_score` over the obstacle list. -/
def Game.updateScoreList (g : Game) :
    List Obstacle → Game × List Obstacle
  | [] => (g, [])
  | o :: rest =>
    let p := Game.scoreStep g o
    let r := Game.updateScoreList p.1 rest
    (r.1, p.2 :: r.2)

/-- `Game.update_score` (lines 2721-2726). -/
def Game.update_score (g : Game) : Game :=
  let p := Game.updateScoreList g g.obstacles
  { p.1 with obstacles := p.2 }

/-- Scoring for one obstacle destroyed by a bullet (lines 2700-2719). -/
def Game.bulletHitScore (g : Game) (o : Obstacle) : Game :=
  if o.already_passed = false then Game.add_score g 1 else g

/-- `pygame.sprite.groupcollide(bullets, obstacles, True, True)`: each bullet
in order collects and kills every obstacle it overlaps, and is itself killed
if it hit anything.  Returns surviving bullets, surviving obstacles and the
killed obstacles in hit order. -/
def bulletSweep : List Rect → List Obstacle →
    List Rect × List Obstacle × List Obstacle
  | [], obs => ([], obs, [])
  | b :: bs, obs =>
    let hits := obs.filter (fun o => Rect.colliderect b o.rect)
    if hits.isEmpty then
      let r := bulletSweep bs obs
      (b :: r.1, r.2.1, r.2.2)
    else
      let r := bulletSweep bs (obs.filter (fun o => !Rect.colliderect b o.rect))
      (r.1, r.2.1, hits ++ r.2.2)

/-- `Game.check_collisions` (lines 2688-2719): the cat scan (which itself
sets `game_over` on a fatal hit), then bullet-obstacle destruction with
pass-gated scoring. -/
def Game.check_collisions (g : Game) : Game :=
  let r := catCheckCollisions g.cat g.obstacles
  let g := { g with
    cat := r.1
    obstacles := r.2.1
    game_over := g.game_over || r.2.2 }
  let s := bulletSweep g.bullets g.obstacles
  let g := { g with bullets := s.1, obstacles := s.2.1 }
  s.2.2.foldl Game.bulletHitScore g

/-- The random draws made by `Obstacle()` and `spawn_obstacle`: the chosen
type, the placement/size rect, and the speed jitter `uniform(-0.5, 0.5)`. -/
structure SpawnData where
  type : ObstacleType
  rect : Rect
  jitter : ℚ

/-- `Game.spawn_obstacle` (lines 2677-2686): spawn when the elapsed time
exceeds the current interval; the new obstacle's speed is
`current_speed + jitter`. -/
def Game.spawn_obstacle (g : Game) (now : Int) (d : SpawnData) : Game :=
  if g.obstacle_frequency < now - g.last_obstacle then
    { g with
      obstacles := g.obstacles ++
        [{ type := d.type, rect := d.rect,
           speed := qAdd g.current_speed d.jitter,
           already_passed := false }]
      last_obstacle := now }
  else g

/-- `Game.shoot_bullet` (lines 3161-3188): on success a bullet (25×25 image)
is centered on the cat. -/
def Game.shoot_bullet (g : Game) : Game :=
  let r := Cat.shoot g.cat
  if r.2 = true then
    { g with
      cat := r.1
      bullets := g.bullets ++
        [{ x := g.cat.rect.centerx - 12, y := g.cat.rect.centery - 12,
           w := 25, h := 25 }] }
  else { g with cat := r.1 }

/-- `Game.reset` (lines 2968-2976): persist a new record, then re-run
`__init__`, which reloads the high score from the store. -/
def Game.reset (A : Assets) (g : Game) (now : Int) : Game :=
  let stored :=
    if g.high_score < g.score then g.score else g.stored_high_score
  Game.init A stored now

/-! ## The per-frame loop (`Game.run`, lines 2978-3159)

One iteration after the splash screen: edge-triggered input, then — when the
round is live — `spawn_obstacle`, `all_sprites.update()` (cat, obstacles and
bullets), `check_collisions`, `update_score`, and `bullets.update()` (bullets
are in `all_sprites` too, so they advance twice per frame).  After game-over
only the cat's death animation advances. -/

/-- The edge-triggered action requests relevant to the simulation. -/
inductive GAction
  | jump
  | slide
  | shoot
  | reset
deriving DecidableEq

/-- External data of one frame: the clock reading, at most one action
request, and the random draws the spawner would use this frame. -/
structure FrameInput where
  now : Int
  action : Option GAction
  spawn : SpawnData

/-- Key handling (lines 2990-3028): jump/slide/shoot only while the round is
live, reset only after game-over. -/
def Game.applyAction (A : Assets) (g : Game) (now : Int) :
    Option GAction → Game
  | none => g
  | some GAction.jump =>
    if g.game_over = false then { g with cat := Cat.jump g.cat } else g
  | some GAction.slide =>
    if g.game_over = false then { g with cat := Cat.slide g.cat } else g
  | some GAction.shoot =>
    if g.game_over = false then Game.shoot_bullet g else g
  | some GAction.reset =>
    if g.game_over = true then Game.reset A g now else g

/-- One iteration of the main loop (post-splash). -/
def Game.frame (A : Assets) (g : Game) (i : FrameInput) : Game :=
  let g := Game.applyAction A g i.now i.action
  if g.game_over = true then
    { g with cat := Cat.update A.frameCount g.cat }
  else
    let g := Game.spawn_obstacle g i.now i.spawn
    let g := { g with
      cat := Cat.update A.frameCount g.cat
      obstacles := moveObstacles g.obstacles
      bullets := moveBullets g.bullets }
    let g := Game.check_collisions g
    let g := Game.update_score g
    { g with bullets := moveBullets g.bullets }

/-- A run: fold the frame loop over a list of frame inputs. -/
def Game.run (A : Assets) (g : Game) (l : List FrameInput) : Game :=
  l.foldl (Game.frame A) g

/-- The only constraint the source puts on the spawner's random speed draw:
`random.uniform(-0.5, 0.5)`. -/
def ValidInput (i : FrameInput) : Prop :=
  mkRat (-1) 2 ≤ i.spawn.jitter ∧ i.spawn.jitter ≤ mkRat 1 2

def ValidInputs (l : List FrameInput) : Prop := ∀ i ∈ l, ValidInput i

instance : DecidablePred ValidInput := fun _ => by
  unfold ValidInput; infer_instance

instance (l : List FrameInput) : Decidable (ValidInputs l) := by
  unfold ValidInputs; infer_instance

/-- The C5 invariant as amended: every live obstacle keeps a speed of at
least the base speed at its spawn time minus the jitter bound, hence at
least the initial base speed (7) minus 0.5; and the recomputed base speed
never drops below its initial value. -/
def SpeedInv (g : Game) : Prop :=
  (∀ o ∈ g.obstacles, OBSTACLE_SPEED - 1/2 ≤ o.speed) ∧
  OBSTACLE_SPEED ≤ g.current_speed

/-- Number of obstacles the `update_score` scan will award this frame. -/
def newlyPassedCount (catLeft : Int) (l : List Obstacle) : Nat :=
  (l.filter
    (fun o => decide (o.rect.right < catLeft ∧ o.already_passed = false))).length

/-! ## Concrete states and runs used in the closed statements -/

/-- A concrete choice of the external assets: 50×50 cat sprite, 4 frames per
animation. -/
def testAssets : Assets where
  frameCount := fun _ => 4
  catW := 50
  catH := 50

/-- A spawn draw the source can produce: a `balloon` at the top of its
height band (`balloon_height = 120`, scale 1.0 so the sprite is 48×84,
`rect.bottomleft = (WIDTH, GROUND_LEVEL - 120)`), with speed jitter `-0.5`. -/
def balloonSpawn : SpawnData where
  type := ObstacleType.balloon
  rect := { x := 800, y := 296, w := 48, h := 84 }
  jitter := mkRat (-1) 2

/-- A spawn draw the source can produce: a `stone` of scale ≈0.9 (46×46,
`bottomleft = (WIDTH, GROUND_LEVEL)`), with speed jitter `-0.5`. -/
def stoneSpawn : SpawnData where
  type := ObstacleType.stone
  rect := { x := 800, y := 454, w := 46, h := 46 }
  jitter := mkRat (-1) 2

/-- Frame inputs of the run refuting C5: the external clock jumps 1501 ms per
frame for the first ten frames (a lag spike), so the spawner fires ten times;
afterwards the clock advances 1 ms per frame and no further spawns occur.
No keys are pressed. -/
def c5input (k : Nat) : FrameInput :=
  if k < 10 then { now := 1501 * (k + 1), action := none, spawn := balloonSpawn }
  else { now := 15010 + (k - 9), action := none, spawn := balloonSpawn }

def c5steps : List FrameInput := (List.range 116).map c5input

/-- The world after 116 frames of that run: all ten balloons have sailed over
the grounded cat and been scored (score 10 recomputes the base speed to 7.2),
and all ten are still on screen with their spawn-time speed 6.5. -/
def c5world : Game := Game.run testAssets (Game.init testAssets 0 0) c5steps

/-- Frame inputs of the run refuting C4: stored high score 3; five balloons
spawn during an initial clock spike and sail over the cat (score 5), then one
stone spawns at frame 112 and runs into the grounded cat. -/
def c4input (k : Nat) : FrameInput :=
  if k < 5 then { now := 1501 * (k + 1), action := none, spawn := balloonSpawn }
  else if k < 111 then
    { now := 7505 + (k - 4), action := none, spawn := stoneSpawn }
  else if k = 111 then { now := 1501 * 6, action := none, spawn := stoneSpawn }
  else { now := 1501 * 6 + (k - 111), action := none, spawn := stoneSpawn }

def c4steps : List FrameInput := (List.range 210).map c4input

/-- The world after 210 frames of that run: the round is over (score 5,
beating the stored high score 3), and the store still holds 3. -/
def c4world : Game := Game.run testAssets (Game.init testAssets 3 0) c4steps

/-- A freshly initialized game, used as the base of small concrete states. -/
def baseGame : Game := Game.init testAssets 0 0

/-- A `low_balloon` ("hard to avoid" type) whose trailing edge (x+48 = 78)
is already past the cat's leading edge (100) and which is not yet scored. -/
def passedLowBalloon : Obstacle where
  type := ObstacleType.low_balloon
  rect := { x := 30, y := 360, w := 48, h := 84 }
  speed := 7
  already_passed := false

/-- A `stone` (basic ground type) already past the cat and not yet scored. -/
def passedStone : Obstacle where
  type := ObstacleType.stone
  rect := { x := 30, y := 454, w := 46, h := 46 }
  speed := 7
  already_passed := false

def c1gameHard : Game := { baseGame with obstacles := [passedLowBalloon] }

def c1gameBasic : Game := { baseGame with obstacles := [passedStone] }

/-- A grounded cat (50×80 sprite, standing at the ground line). -/
def c2cat : Cat := Cat.init 50 80

/-- A regular `balloon` at the bottom of its height band
(`balloon_height = 60`), overlapping the grounded cat's hitbox. -/
def lowFlyingBalloon : Obstacle where
  type := ObstacleType.balloon
  rect := { x := 120, y := 356, w := 48, h := 84 }
  speed := 7
  already_passed := false

/-- An airborne cat (mid-jump), reachable by `jump()` from the ground. -/
def c3cat : Cat :=
  { Cat.init 50 80 with
    rect := { x := 100, y := 300, w := 50, h := 80 }
    on_ground := false
    current_animation := Anim.jump }

/-- First glow-balloon power-up, overlapping the airborne cat. -/
def glowBalloonA : Obstacle where
  type := ObstacleType.glow_balloon
  rect := { x := 110, y := 300, w := 54, h := 90 }
  speed := 7
  already_passed := false

/-- Second glow-balloon power-up, also overlapping the airborne cat. -/
def glowBalloonB : Obstacle where
  type := ObstacleType.glow_balloon
  rect := { x := 130, y := 310, w := 54, h := 90 }
  speed := 7
  already_passed := false

/-- A grounded cat with the default 50×50 fallback sprite. -/
def c9cat : Cat := Cat.init 50 50

def fc4 : FrameCount := fun _ => 4

/-- A one-frame run whose clock jump makes the spawner fire once. -/
def w5trace : List FrameInput :=
  [{ now := 1501, action := none, spawn := balloonSpawn }]

/-- The obstacle that one-frame run produces (spawned at x=800 with speed
6.5, then moved once). -/
def w5obstacle : Obstacle where
  type := ObstacleType.balloon
  rect := { x := 793, y := 296, w := 48, h := 84 }
  speed := mkRat 13 2
  already_passed := false

/-- A game state just before game over: score 5 beats the stored record 3. -/
def c4resetGame : Game :=
  { baseGame with score := 5, high_score := 3, stored_high_score := 3 }

/-! ## Bridge lemmas: the `mkRat`-phrased arithmetic agrees with ℚ -/

theorem qAdd_eq (a b : ℚ) : qAdd a b = a + b := by
  have ha : ((a.den : ℚ)) ≠ 0 := by
    exact_mod_cast a.den_nz
  have hb : ((b.den : ℚ)) ≠ 0 := by
    exact_mod_cast b.den_nz
  rw [qAdd, Rat.mkRat_eq_div]
  push_cast
  conv_rhs => rw [← Rat.num_div_den a, ← Rat.num_div_den b]
  rw [div_add_div _ _ ha hb]
  ring_nf

theorem qSub_eq (a b : ℚ) : qSub a b = a - b := by
  have ha : ((a.den : ℚ)) ≠ 0 := by
    exact_mod_cast a.den_nz
  have hb : ((b.den : ℚ)) ≠ 0 := by
    exact_mod_cast b.den_nz
  rw [qSub, Rat.mkRat_eq_div]
  push_cast
  conv_rhs => rw [← Rat.num_div_den a, ← Rat.num_div_den b]
  rw [div_sub_div _ _ ha hb]
  ring_nf

theorem qMul_eq (a b : ℚ) : qMul a b = a * b := by
  rw [qMul, Rat.mkRat_eq_div]
  push_cast
  conv_rhs => rw [← Rat.num_div_den a, ← Rat.num_div_den b]
  rw [div_mul_div_comm]

theorem qOfInt_eq (n : Int) : qOfInt n = (n : ℚ) := by
  rw [qOfInt, Rat.mkRat_eq_div]
  simp

theorem Rect.bottom_setBottom (r : Rect) (b : Int) : (r.setBottom b).bottom = b := by
  simp [Rect.setBottom, Rect.bottom]

/-- `difficultySpeed` in ordinary ℚ arithmetic. -/
theorem difficultySpeed_def (s : Nat) :
    difficultySpeed s = min ((7 : ℚ) + (s / 10 : Nat) * (1/5)) 15 := by
  have h15 : (mkRat 1 5 : ℚ) = 1/5 := by
    rw [Rat.mkRat_eq_div]
    norm_num
  rw [difficultySpeed, qAdd_eq, qMul_eq, qOfInt_eq, OBSTACLE_SPEED,
    DIFFICULTY_INCREASE_RATE, MAX_OBSTACLE_SPEED, h15, Int.ofNat_eq_natCast,
    Int.cast_natCast]

/-- C6.  The difficulty functions recomputed by `update_difficulty` are
monotone in the score and clamped: for `s1 < s2`,
`difficultySpeed s1 ≤ difficultySpeed s2 ≤ MAX_OBSTACLE_SPEED` (15) and
`spawnInterval s1 ≥ spawnInterval s2 ≥ MIN_OBSTACLE_FREQUENCY` (800 ms),
where `difficultySpeed s = min(7 + (s / 10)·0.2, 15)` and
`spawnInterval s = max(1500 − (s / 5)·50, 800)`. -/
theorem difficulty_monotone_clamped : ∀ s1 s2 : Nat, s1 < s2 →
    difficultySpeed s1 ≤ difficultySpeed s2 ∧
    difficultySpeed s2 ≤ MAX_OBSTACLE_SPEED ∧
    spawnInterval s2 ≤ spawnInterval s1 ∧
    MIN_OBSTACLE_FREQUENCY ≤ spawnInterval s2 := by
  intro s1 s2 h
  have hd : ((s1 / 10 : Nat) : ℚ) ≤ ((s2 / 10 : Nat) : ℚ) := by
    exact_mod_cast Nat.div_le_div_right (Nat.le_of_lt h)
  have hf : ((s1 / 5 : Nat) : Int) ≤ ((s2 / 5 : Nat) : Int) := by
    exact_mod_cast Nat.div_le_div_right (Nat.le_of_lt h)
  refine ⟨?_, ?_, ?_, ?_⟩
  · rw [difficultySpeed_def, difficultySpeed_def]
    exact min_le_min (by nlinarith) le_rfl
  · rw [difficultySpeed]
    exact min_le_right _ _
  · unfold spawnInterval
    simp only [Int.ofNat_eq_natCast]
    exact max_le_max (by omega) le_rfl
  · unfold spawnInterval MIN_OBSTACLE_FREQUENCY
    exact le_max_right _ _

theorem difficulty_monotone_clamped_witness :
    (3 : Nat) < 200 ∧
    (difficultySpeed 3 ≤ difficultySpeed 200 ∧
      difficultySpeed 200 ≤ MAX_OBSTACLE_SPEED ∧
      spawnInterval 200 ≤ spawnInterval 3 ∧
      MIN_OBSTACLE_FREQUENCY ≤ spawnInterval 200) :=
  ⟨by norm_num, difficulty_monotone_clamped 3 200 (by norm_num)⟩

/-- C7.  Scoring is idempotent per obstacle: once `already_passed` is set,
the `update_score` loop body skips the obstacle entirely (no points, state
unchanged), bullet-destruction scoring adds nothing for it, and per-frame
movement keeps the flag set — so over any sequence of later ticks (which
consist exactly of these operations on the obstacle) it never contributes
to the score again. -/
theorem scored_flag_idempotent : ∀ (g : Game) (o : Obstacle),
    o.already_passed = true →
    Game.scoreStep g o = (g, o) ∧
    Game.bulletHitScore g o = g ∧
    (Obstacle.updateMoved o).already_passed = true := by
  intro g o h
  refine ⟨?_, ?_, ?_⟩
  · simp [Game.scoreStep, h]
  · simp [Game.bulletHitScore, h]
  · simp [Obstacle.updateMoved, h]

theorem scored_flag_idempotent_witness :
    Game.scoreStep baseGame { passedStone with already_passed := true } =
      (baseGame, { passedStone with already_passed := true }) ∧
    Game.bulletHitScore baseGame { passedStone with already_passed := true } =
      baseGame ∧
    (Obstacle.updateMoved
      { passedStone with already_passed := true }).already_passed = true :=
  scored_flag_idempotent baseGame { passedStone with already_passed := true } rfl

/-- C8.  `slide()` takes effect only when the cat is grounded, not already
sliding, not dead, and the slide cooldown has expired; under any other
condition it returns the state unchanged.  In particular a second `slide()`
while the first slide is active is a no-op (it cannot reset `slide_timer` or
re-shrink the hitbox), and a successful slide keeps the hitbox bottom edge
in place. -/
theorem slide_guard : ∀ c : Cat,
    ((c.is_dead = true ∨ c.is_sliding = true ∨ c.on_ground = false ∨
        0 < c.slide_cooldown) → Cat.slide c = c) ∧
    (c.is_dead = false → c.is_sliding = false → c.on_ground = true →
      c.slide_cooldown = 0 →
      (Cat.slide c).is_sliding = true ∧ (Cat.slide c).slide_timer = 0 ∧
      (Cat.slide c).rect.bottom = c.rect.bottom ∧
      Cat.slide (Cat.slide c) = Cat.slide c) := by
  intro c
  constructor
  · intro h
    unfold Cat.slide
    rw [if_pos h]
  · intro h1 h2 h3 h4
    have hg : ¬(c.is_dead = true ∨ c.is_sliding = true ∨ c.on_ground = false ∨
        0 < c.slide_cooldown) := by
      simp [h1, h2, h3, h4]
    unfold Cat.slide
    rw [if_neg hg, if_pos (by simp)]
    refine ⟨rfl, rfl, Rect.bottom_setBottom _ _, rfl⟩

theorem slide_guard_witness :
    Cat.slide { c9cat with is_sliding := true } =
      { c9cat with is_sliding := true } ∧
    ((Cat.slide c9cat).is_sliding = true ∧ (Cat.slide c9cat).slide_timer = 0 ∧
      (Cat.slide c9cat).rect.bottom = c9cat.rect.bottom ∧
      Cat.slide (Cat.slide c9cat) = Cat.slide c9cat) :=
  ⟨(slide_guard { c9cat with is_sliding := true }).1 (Or.inr (Or.inl rfl)),
    (slide_guard c9cat).2 rfl rfl rfl rfl⟩

/-- C10 (implicit).  Every `add_score` call that lifts the total to at least
`last_shot_score + SHOOT_THRESHOLD` (20) adds exactly one shot charge and
sets `last_shot_score` to the new total; a call that leaves the total below
that threshold changes neither. -/
theorem add_score_shot_threshold : ∀ (g : Game) (points : Nat),
    (Game.add_score g points).score = g.score + points ∧
    (g.last_shot_score + SHOOT_THRESHOLD ≤ g.score + points →
      (Game.add_score g points).cat.shots_available =
        g.cat.shots_available + 1 ∧
      (Game.add_score g points).last_shot_score = g.score + points) ∧
    (g.score + points < g.last_shot_score + SHOOT_THRESHOLD →
      (Game.add_score g points).cat.shots_available = g.cat.shots_available ∧
      (Game.add_score g points).last_shot_score = g.last_shot_score) := by
  intro g pts
  unfold Game.add_score Game.update_difficulty
  dsimp only
  split_ifs with h
  · exact ⟨rfl, fun _ => ⟨rfl, rfl⟩, fun h' => absurd h (by omega)⟩
  · exact ⟨rfl, fun h' => absurd h' h, fun _ => ⟨rfl, rfl⟩⟩

theorem add_score_shot_threshold_witness :
    ((Game.add_score baseGame 25).cat.shots_available =
        baseGame.cat.shots_available + 1 ∧
      (Game.add_score baseGame 25).last_shot_score = baseGame.score + 25) ∧
    ((Game.add_score baseGame 5).cat.shots_available =
        baseGame.cat.shots_available ∧
      (Game.add_score baseGame 5).last_shot_score = baseGame.last_shot_score) :=
  ⟨(add_score_shot_threshold baseGame 25).2.1 (by decide),
    (add_score_shot_threshold baseGame 5).2.2 (by decide)⟩

/-- `add_score` never touches the combo counter or the cat's rect, and adds
exactly its argument to the score. -/
theorem add_score_fields (g : Game) (n : Nat) :
    (Game.add_score g n).combo_counter = g.combo_counter ∧
    (Game.add_score g n).cat.rect = g.cat.rect ∧
    (Game.add_score g n).score = g.score + n := by
  unfold Game.add_score Game.update_difficulty
  dsimp only
  split_ifs <;> exact ⟨rfl, rfl, rfl⟩

/-- The `update_score` scan awards exactly one point per newly passed
obstacle and leaves the combo counter and the cat's rect alone. -/
theorem updateScoreList_spec : ∀ (l : List Obstacle) (g : Game),
    (Game.updateScoreList g l).1.score =
      g.score + newlyPassedCount g.cat.rect.left l ∧
    (Game.updateScoreList g l).1.combo_counter = g.combo_counter ∧
    (Game.updateScoreList g l).1.cat.rect = g.cat.rect := by
  intro l
  induction l with
  | nil =>
    intro g
    simp [Game.updateScoreList, newlyPassedCount]
  | cons o rest ih =>
    intro g
    unfold Game.updateScoreList Game.scoreStep
    dsimp only
    by_cases hc : o.rect.right < g.cat.rect.left ∧ o.already_passed = false
    · rw [if_pos hc]
      obtain ⟨ha1, ha2, ha3⟩ := add_score_fields g 1
      obtain ⟨ih1, ih2, ih3⟩ := ih (Game.add_score g 1)
      refine ⟨?_, ?_, ?_⟩
      · rw [ih1, ha3, ha2]
        unfold newlyPassedCount
        rw [List.filter_cons, if_pos (by simpa using hc)]
        simp [newlyPassedCount]
        omega
      · rw [ih2, ha1]
      · rw [ih3, ha2]
    · rw [if_neg hc]
      obtain ⟨ih1, ih2, ih3⟩ := ih g
      refine ⟨?_, ih2, ih3⟩
      rw [ih1]
      unfold newlyPassedCount
      rw [List.filter_cons, if_neg (by simpa using hc)]

/-- C1 (corrected).  The passing-score step is type-blind: every pass of a
not-yet-scored obstacle — ground/basic or "hard to avoid" alike — adds the
flat amount 1 (`add_score(1)`), and the combo counter is never modified (it
stays at whatever `__init__`/`reset` set, namely 0). -/
theorem update_score_flat_no_combo : ∀ g : Game,
    (Game.update_score g).score =
      g.score + newlyPassedCount g.cat.rect.left g.obstacles ∧
    (Game.update_score g).combo_counter = g.combo_counter := by
  intro g
  have h := updateScoreList_spec g.obstacles g
  exact ⟨h.1, h.2.1⟩

/-- C1 counterexample.  A passed `low_balloon` ("hard to avoid" type) awards
exactly the same flat 1 point as a passed basic `stone`, and the combo
counter is not incremented — contradicting the claimed type-dependent higher
award and combo bookkeeping. -/
theorem update_score_hard_type_flat_counterexample :
    (Game.update_score c1gameHard).score = c1gameHard.score + 1 ∧
    (Game.update_score c1gameBasic).score = c1gameBasic.score + 1 ∧
    (Game.update_score c1gameHard).combo_counter = c1gameHard.combo_counter ∧
    ¬((Game.update_score c1gameHard).combo_counter =
        c1gameHard.combo_counter + 1) := by
  decide

/-- Obstacles that do not collide with the cat are passed over by the
collision scan, unchanged and in order. -/
theorem catCollideList_skip (c : Cat) (l : List Obstacle) :
    ∀ pre : List Obstacle,
      (∀ p ∈ pre, Rect.colliderect c.rect p.rect = false) →
      catCollideList c (pre ++ l) =
        ((catCollideList c l).1, pre ++ (catCollideList c l).2.1,
          (catCollideList c l).2.2) := by
  intro pre
  induction pre with
  | nil => intro _; simp
  | cons p ps ih =>
    intro h
    have hp : Rect.colliderect c.rect p.rect = false := h p (by simp)
    rw [List.cons_append]
    have hstep : catCollideList c (p :: (ps ++ l)) =
        ((catCollideList c (ps ++ l)).1, p :: (catCollideList c (ps ++ l)).2.1,
          (catCollideList c (ps ++ l)).2.2) := by
      simp only [catCollideList]
      rw [if_pos hp]
    rw [hstep, ih (fun q hq => h q (by simp [hq]))]
    simp

/-- One scan step on a colliding regular balloon: fatal, scan ends. -/
theorem catCollideList_balloon_head (c : Cat) (o : Obstacle)
    (rest : List Obstacle) (htype : o.type = ObstacleType.balloon)
    (hcol : Rect.colliderect c.rect o.rect = true) :
    catCollideList c (o :: rest) = (Cat.die c, o :: rest, true) := by
  simp only [catCollideList]
  rw [if_neg (by simp [hcol]), if_neg (by simp [htype]),
    if_neg (by simp [Obstacle.requires_slide, htype]),
    if_neg (by simp [htype])]

/-- One scan step on a colliding glow balloon: +1 double jump, obstacle
destroyed, scan ends without death. -/
theorem catCollideList_glow_balloon_head (c : Cat) (o : Obstacle)
    (rest : List Obstacle) (htype : o.type = ObstacleType.glow_balloon)
    (hcol : Rect.colliderect c.rect o.rect = true) :
    catCollideList c (o :: rest) =
      ({ c with double_jumps_available := c.double_jumps_available + 1 },
        rest, false) := by
  simp only [catCollideList]
  rw [if_neg (by simp [hcol]), if_neg (by simp [htype]),
    if_neg (by simp [Obstacle.requires_slide, htype]), if_pos htype]

/-- One scan step on a colliding glowing obstacle: +1 shot, obstacle
destroyed, scan ends without death. -/
theorem catCollideList_glowing_head (c : Cat) (o : Obstacle)
    (rest : List Obstacle) (htype : o.type = ObstacleType.glowing_obstacle)
    (hcol : Rect.colliderect c.rect o.rect = true) :
    catCollideList c (o :: rest) =
      ({ c with shots_available := c.shots_available + 1 }, rest, false) := by
  simp only [catCollideList]
  rw [if_neg (by simp [hcol]), if_pos htype]

/-- C2 (corrected).  A collision with a regular balloon is fatal regardless
of the actor's stance: whenever a live cat's hitbox overlaps a `balloon`
obstacle (the first colliding obstacle of the scan), the cat dies and the
round is game-over — grounded or airborne alike, since the code has no
grounded exemption.  If the cat instead never overlaps it, then once the
balloon's trailing edge passes the cat's leading edge the pass scan adds its
pass value (the flat `add_score(1)`) and marks it scored. -/
theorem balloon_collision_fatal_any_stance :
    (∀ (c : Cat) (o : Obstacle) (pre rest : List Obstacle),
      c.is_dead = false →
      o.type = ObstacleType.balloon →
      (∀ p ∈ pre, Rect.colliderect c.rect p.rect = false) →
      Rect.colliderect c.rect o.rect = true →
      catCheckCollisions c (pre ++ o :: rest) =
        (Cat.die c, pre ++ o :: rest, true)) ∧
    (∀ (g : Game) (o : Obstacle),
      o.type = ObstacleType.balloon →
      o.rect.right < g.cat.rect.left →
      o.already_passed = false →
      Game.scoreStep g o =
        (Game.add_score g 1, { o with already_passed := true })) := by
  constructor
  · intro c o pre rest hdead htype hpre hcol
    unfold catCheckCollisions
    rw [if_neg (by simp [hdead]), catCollideList_skip c (o :: rest) pre hpre,
      catCollideList_balloon_head c o rest htype hcol]
  · intro g o htype hpass hflag
    unfold Game.scoreStep
    rw [if_pos ⟨hpass, hflag⟩]

theorem balloon_collision_fatal_any_stance_witness :
    catCheckCollisions c2cat [lowFlyingBalloon] =
      (Cat.die c2cat, [lowFlyingBalloon], true) ∧
    Game.scoreStep c1gameBasic
        { lowFlyingBalloon with rect := { x := 30, y := 356, w := 48, h := 84 } } =
      (Game.add_score c1gameBasic 1,
        { lowFlyingBalloon with
            rect := { x := 30, y := 356, w := 48, h := 84 }
            already_passed := true }) := by
  constructor
  · exact (balloon_collision_fatal_any_stance).1 c2cat lowFlyingBalloon [] []
      rfl rfl (by intro p hp; cases hp) rfl
  · exact (balloon_collision_fatal_any_stance).2 c1gameBasic
      { lowFlyingBalloon with rect := { x := 30, y := 356, w := 48, h := 84 } }
      rfl (by decide) rfl

/-- C2 counterexample.  A grounded, live cat overlapping a regular balloon
dies: the collision is not "no effect while grounded". -/
theorem grounded_balloon_overlap_kills_counterexample :
    c2cat.on_ground = true ∧ c2cat.is_dead = false ∧
    Rect.colliderect c2cat.rect lowFlyingBalloon.rect = true ∧
    (catCheckCollisions c2cat [lowFlyingBalloon]).2.2 = true ∧
    (catCheckCollisions c2cat [lowFlyingBalloon]).1.is_dead = true ∧
    ¬(catCheckCollisions c2cat [lowFlyingBalloon] =
        (c2cat, [lowFlyingBalloon], false)) := by
  decide

/-- C3 (corrected).  Power-up collision resolution grants exactly one charge
(double jump for `glow_balloon`, shot for `glowing_obstacle`), destroys the
power-up and does not kill the cat — but it ends the frame's resolution pass
immediately (`return False`), leaving every remaining obstacle, even an
overlapping one, unscanned this frame. -/
theorem powerup_collision_grants_and_stops_scan :
    (∀ (c : Cat) (o : Obstacle) (pre rest : List Obstacle),
      c.is_dead = false →
      o.type = ObstacleType.glow_balloon →
      (∀ p ∈ pre, Rect.colliderect c.rect p.rect = false) →
      Rect.colliderect c.rect o.rect = true →
      catCheckCollisions c (pre ++ o :: rest) =
        ({ c with double_jumps_available := c.double_jumps_available + 1 },
          pre ++ rest, false)) ∧
    (∀ (c : Cat) (o : Obstacle) (pre rest : List Obstacle),
      c.is_dead = false →
      o.type = ObstacleType.glowing_obstacle →
      (∀ p ∈ pre, Rect.colliderect c.rect p.rect = false) →
      Rect.colliderect c.rect o.rect = true →
      catCheckCollisions c (pre ++ o :: rest) =
        ({ c with shots_available := c.shots_available + 1 },
          pre ++ rest, false)) := by
  constructor
  · intro c o pre rest hdead htype hpre hcol
    unfold catCheckCollisions
    rw [if_neg (by simp [hdead]), catCollideList_skip c (o :: rest) pre hpre,
      catCollideList_glow_balloon_head c o rest htype hcol]
  · intro c o pre rest hdead htype hpre hcol
    unfold catCheckCollisions
    rw [if_neg (by simp [hdead]), catCollideList_skip c (o :: rest) pre hpre,
      catCollideList_glowing_head c o rest htype hcol]

theorem powerup_collision_grants_and_stops_scan_witness :
    catCheckCollisions c3cat [glowBalloonA] =
      ({ c3cat with
          double_jumps_available := c3cat.double_jumps_available + 1 },
        [], false) ∧
    catCheckCollisions c2cat
        [{ passedStone with
            type := ObstacleType.glowing_obstacle
            rect := { x := 120, y := 454, w := 46, h := 46 } }] =
      ({ c2cat with shots_available := c2cat.shots_available + 1 },
        [], false) := by
  constructor
  · exact (powerup_collision_grants_and_stops_scan).1 c3cat glowBalloonA [] []
      rfl rfl (by intro p hp; cases hp) rfl
  · exact (powerup_collision_grants_and_stops_scan).2 c2cat _ [] []
      rfl rfl (by intro p hp; cases hp) (by decide)

/-- C3 counterexample.  Two glow-balloon power-ups both overlap the airborne
cat; the resolution pass collects only the first (+1 charge, not +2) and
returns, leaving the second, still-overlapping power-up alive — the scan does
not continue within the same pass. -/
theorem second_overlapping_powerup_not_collected_counterexample :
    Rect.colliderect c3cat.rect glowBalloonA.rect = true ∧
    Rect.colliderect c3cat.rect glowBalloonB.rect = true ∧
    (catCheckCollisions c3cat
        [glowBalloonA, glowBalloonB]).1.double_jumps_available =
      c3cat.double_jumps_available + 1 ∧
    (catCheckCollisions c3cat [glowBalloonA, glowBalloonB]).2.1 =
      [glowBalloonB] ∧
    ¬((catCheckCollisions c3cat
        [glowBalloonA, glowBalloonB]).1.double_jumps_available =
      c3cat.double_jumps_available + 2) := by
  decide

/-- `updateCooldown` only touches the cooldown counter. -/
theorem updateCooldown_fields (c : Cat) :
    (Cat.updateCooldown c).rect = c.rect ∧
    (Cat.updateCooldown c).velocity_y = c.velocity_y ∧
    (Cat.updateCooldown c).on_ground = c.on_ground ∧
    (Cat.updateCooldown c).is_sliding = c.is_sliding ∧
    (Cat.updateCooldown c).is_dead = c.is_dead ∧
    (Cat.updateCooldown c).current_animation = c.current_animation := by
  unfold Cat.updateCooldown
  split_ifs <;> exact ⟨rfl, rfl, rfl, rfl, rfl, rfl⟩

/-- Gravity applied to an airborne cat that stays non-falling. -/
theorem applyGravity_no_fall (c : Cat) (h : c.on_ground = false)
    (hv : c.velocity_y + GRAVITY ≤ 0) :
    Cat.applyGravity c = { c with velocity_y := c.velocity_y + GRAVITY } := by
  unfold Cat.applyGravity
  rw [if_neg (by simp [h])]
  dsimp only
  rw [if_neg (by intro hcon; exact absurd hcon.1 (by omega))]

/-- No ground clamping while still above the ground line. -/
theorem groundClamp_airborne (c : Cat) (h : c.rect.bottom < GROUND_LEVEL) :
    Cat.groundClamp c = c := by
  unfold Cat.groundClamp
  rw [if_neg (by omega)]

/-- `update_animation` only touches the frame bookkeeping. -/
theorem updateAnimation_fields (fc : FrameCount) (c : Cat) :
    (Cat.updateAnimation fc c).on_ground = c.on_ground ∧
    (Cat.updateAnimation fc c).velocity_y = c.velocity_y := by
  unfold Cat.updateAnimation
  split_ifs <;> exact ⟨rfl, rfl⟩

/-- One `update()` tick of a live, non-sliding, airborne cat that neither
starts falling nor reaches the ground: gravity is added to the velocity and
the cat stays airborne. -/
theorem post_jump_tick (fc : FrameCount) (x : Cat)
    (hg : x.on_ground = false) (hv : x.velocity_y + GRAVITY ≤ 0)
    (hb : x.rect.bottom + (x.velocity_y + GRAVITY) < GROUND_LEVEL)
    (hs : x.is_sliding = false) (hd : x.is_dead = false) :
    (Cat.update fc x).on_ground = false ∧
    (Cat.update fc x).velocity_y = x.velocity_y + GRAVITY := by
  unfold Cat.update
  rw [if_neg (by simp [hd])]
  have e1 : Cat.updateSlide x = x := by
    unfold Cat.updateSlide
    rw [if_neg (by simp [hs])]
  rw [e1]
  obtain ⟨f1, f2, f3, _, _, _⟩ := updateCooldown_fields x
  have e2 := applyGravity_no_fall (Cat.updateCooldown x)
    (by rw [f3]; exact hg) (by rw [f2]; exact hv)
  rw [e2]
  have e3 : Cat.integrate
      { Cat.updateCooldown x with
        velocity_y := (Cat.updateCooldown x).velocity_y + GRAVITY } =
      { Cat.updateCooldown x with
        velocity_y := (Cat.updateCooldown x).velocity_y + GRAVITY
        rect := { (Cat.updateCooldown x).rect with
          y := (Cat.updateCooldown x).rect.y +
            ((Cat.updateCooldown x).velocity_y + GRAVITY) } } := rfl
  rw [e3]
  rw [groundClamp_airborne _ (by
    simp only [Rect.bottom] at hb
    simp [Rect.bottom, f1, f2]
    omega)]
  constructor
  · rw [(updateAnimation_fields fc _).1]
    simp [f3, hg]
  · rw [(updateAnimation_fields fc _).2]
    simp [f2]

/-- C9 (corrected).  From any reachable grounded, live state (grounded means
clamped to the ground line, and `normal_bottom` holds the ground line),
`jump()` itself sets `velocity_y = JUMP_FORCE` and clears `on_ground`
regardless of the prior animation state; but after the next `update()` tick
gravity has already been applied, so the observed values are
`on_ground = false` and `velocity_y = JUMP_FORCE + GRAVITY` (−19), not
`JUMP_FORCE` (−20). -/
theorem jump_then_update_velocity :
    ∀ (fc : FrameCount) (c : Cat),
      c.is_dead = false → c.on_ground = true →
      c.rect.bottom = GROUND_LEVEL → c.normal_bottom = GROUND_LEVEL →
      (Cat.jump c).velocity_y = JUMP_FORCE ∧
      (Cat.jump c).on_ground = false ∧
      (Cat.update fc (Cat.jump c)).on_ground = false ∧
      (Cat.update fc (Cat.jump c)).velocity_y = JUMP_FORCE + GRAVITY := by
  intro fc c h1 h2 h3 h4
  have hj : Cat.jump c =
      { c with
        velocity_y := JUMP_FORCE
        on_ground := false
        current_animation := Anim.jump
        frame_index := 0
        is_sliding := false
        rect := (c.rect.setHeight c.normal_height).setBottom c.normal_bottom } := by
    unfold Cat.jump
    rw [if_neg (by simp [h1]), if_pos h2]
  have hkey := post_jump_tick fc (Cat.jump c)
    (by rw [hj])
    (by
      rw [hj]
      show JUMP_FORCE + GRAVITY ≤ 0
      norm_num [JUMP_FORCE, GRAVITY])
    (by
      rw [hj]
      show ((c.rect.setHeight c.normal_height).setBottom c.normal_bottom).bottom
        + (JUMP_FORCE + GRAVITY) < GROUND_LEVEL
      rw [Rect.bottom_setBottom, h4]
      norm_num [GROUND_LEVEL, JUMP_FORCE, GRAVITY])
    (by rw [hj]) (by rw [hj]; exact h1)
  refine ⟨by rw [hj], by rw [hj], hkey.1, ?_⟩
  rw [hkey.2, hj]

theorem jump_then_update_velocity_witness :
    (Cat.jump c9cat).velocity_y = JUMP_FORCE ∧
    (Cat.jump c9cat).on_ground = false ∧
    (Cat.update fc4 (Cat.jump c9cat)).on_ground = false ∧
    (Cat.update fc4 (Cat.jump c9cat)).velocity_y = JUMP_FORCE + GRAVITY :=
  jump_then_update_velocity fc4 c9cat rfl rfl rfl rfl

/-- C9 counterexample.  For a concrete grounded cat, one `update()` after
`jump()` yields `velocity_y = -19 = JUMP_FORCE + GRAVITY`, not
`JUMP_FORCE = -20` as claimed. -/
theorem jump_update_velocity_not_jump_force_counterexample :
    (Cat.update fc4 (Cat.jump c9cat)).on_ground = false ∧
    (Cat.update fc4 (Cat.jump c9cat)).velocity_y = -19 ∧
    ¬((Cat.update fc4 (Cat.jump c9cat)).velocity_y = JUMP_FORCE) := by
  decide

/-- `add_score` never touches the high score or the external store. -/
theorem add_score_hs (g : Game) (n : Nat) :
    (Game.add_score g n).high_score = g.high_score ∧
    (Game.add_score g n).stored_high_score = g.stored_high_score := by
  unfold Game.add_score Game.update_difficulty
  dsimp only
  split_ifs <;> exact ⟨rfl, rfl⟩

/-- Bullet-destruction scoring never touches the high score or the store. -/
theorem bulletScore_foldl_hs : ∀ (l : List Obstacle) (g : Game),
    (l.foldl Game.bulletHitScore g).high_score = g.high_score ∧
    (l.foldl Game.bulletHitScore g).stored_high_score = g.stored_high_score := by
  intro l
  induction l with
  | nil => intro g; exact ⟨rfl, rfl⟩
  | cons o rest ih =>
    intro g
    simp only [List.foldl_cons]
    obtain ⟨ih1, ih2⟩ := ih (Game.bulletHitScore g o)
    have hb : (Game.bulletHitScore g o).high_score = g.high_score ∧
        (Game.bulletHitScore g o).stored_high_score = g.stored_high_score := by
      unfold Game.bulletHitScore
      split_ifs
      · exact add_score_hs g 1
      · exact ⟨rfl, rfl⟩
    exact ⟨ih1.trans hb.1, ih2.trans hb.2⟩

/-- C4 (corrected).  Entering the game-over state (the collision resolution
that sets `game_over`) leaves both the in-memory high score and the external
store untouched; the high score is updated and persisted only when the
player triggers `reset()` — at which point, if the score beats the record,
the store receives the score and the reinitialized game reloads it. -/
theorem high_score_persisted_on_reset_not_at_gameover :
    ∀ (g : Game) (A : Assets) (now : Int),
      ((Game.check_collisions g).high_score = g.high_score ∧
        (Game.check_collisions g).stored_high_score = g.stored_high_score) ∧
      (g.high_score < g.score →
        (Game.reset A g now).stored_high_score = g.score ∧
        (Game.reset A g now).high_score = g.score) := by
  intro g A now
  constructor
  · unfold Game.check_collisions
    dsimp only
    obtain ⟨hf1, hf2⟩ := bulletScore_foldl_hs _ _
    exact ⟨hf1, hf2⟩
  · intro h
    unfold Game.reset Game.init
    dsimp only
    rw [if_pos h]
    exact ⟨rfl, rfl⟩

theorem high_score_persisted_on_reset_not_at_gameover_witness :
    ((Game.check_collisions c4resetGame).high_score = c4resetGame.high_score ∧
      (Game.check_collisions c4resetGame).stored_high_score =
        c4resetGame.stored_high_score) ∧
    ((Game.reset testAssets c4resetGame 0).stored_high_score =
        c4resetGame.score ∧
      (Game.reset testAssets c4resetGame 0).high_score = c4resetGame.score) :=
  ⟨(high_score_persisted_on_reset_not_at_gameover c4resetGame testAssets 0).1,
    (high_score_persisted_on_reset_not_at_gameover c4resetGame testAssets 0).2
      (by decide)⟩

/-- The recomputed base speed never drops below the initial base speed. -/
theorem difficultySpeed_ge (s : Nat) : OBSTACLE_SPEED ≤ difficultySpeed s := by
  rw [difficultySpeed_def, OBSTACLE_SPEED]
  refine le_min ?_ (by norm_num)
  have h : (0 : ℚ) ≤ ((s / 10 : Nat) : ℚ) * (1/5) := by positivity
  linarith

/-- `add_score` keeps the obstacle list and keeps the base speed at least 7. -/
theorem add_score_inv (g : Game) (n : Nat) :
    (Game.add_score g n).obstacles = g.obstacles ∧
    OBSTACLE_SPEED ≤ (Game.add_score g n).current_speed := by
  unfold Game.add_score Game.update_difficulty
  dsimp only
  split_ifs <;> exact ⟨rfl, difficultySpeed_ge _⟩

/-- The pass scan: base speed stays ≥ 7 and output obstacles carry input
speeds. -/
theorem updateScoreList_inv : ∀ (l : List Obstacle) (g : Game),
    (OBSTACLE_SPEED ≤ g.current_speed →
      OBSTACLE_SPEED ≤ (Game.updateScoreList g l).1.current_speed) ∧
    (∀ o' ∈ (Game.updateScoreList g l).2, ∃ o ∈ l, o'.speed = o.speed) := by
  intro l
  induction l with
  | nil =>
    intro g
    exact ⟨fun h => h, by simp [Game.updateScoreList]⟩
  | cons o rest ih =>
    intro g
    unfold Game.updateScoreList Game.scoreStep
    dsimp only
    by_cases hc : o.rect.right < g.cat.rect.left ∧ o.already_passed = false
    · rw [if_pos hc]
      obtain ⟨ihs, ihm⟩ := ih (Game.add_score g 1)
      refine ⟨fun _ => ihs (add_score_inv g 1).2, ?_⟩
      intro o' ho'
      rcases List.mem_cons.mp ho' with h | h
      · exact ⟨o, List.mem_cons_self o rest, by rw [h]⟩
      · obtain ⟨u, hu, hs⟩ := ihm o' h
        exact ⟨u, List.mem_cons_of_mem o hu, hs⟩
    · rw [if_neg hc]
      obtain ⟨ihs, ihm⟩ := ih g
      refine ⟨ihs, ?_⟩
      intro o' ho'
      rcases List.mem_cons.mp ho' with h | h
      · exact ⟨o, List.mem_cons_self o rest, by rw [h]⟩
      · obtain ⟨u, hu, hs⟩ := ihm o' h
        exact ⟨u, List.mem_cons_of_mem o hu, hs⟩

/-- Obstacles surviving the cat's collision scan come from the input list. -/
theorem catCollideList_mem : ∀ (l : List Obstacle) (c : Cat),
    ∀ o' ∈ (catCollideList c l).2.1, o' ∈ l := by
  intro l
  induction l with
  | nil => intro c o' h; simp [catCollideList] at h
  | cons o rest ih =>
    intro c o' h
    simp only [catCollideList] at h
    split_ifs at h
    · rcases List.mem_cons.mp h with h | h
      · exact h ▸ List.mem_cons_self o rest
      · exact List.mem_cons_of_mem o (ih c o' h)
    · exact List.mem_cons_of_mem o h
    · rcases List.mem_cons.mp h with h | h
      · exact h ▸ List.mem_cons_self o rest
      · exact List.mem_cons_of_mem o (ih c o' h)
    · exact List.mem_cons_of_mem o h
    · exact h

/-- Obstacles surviving the bullet sweep come from the input list. -/
theorem bulletSweep_mem : ∀ (bs : List Rect) (obs : List Obstacle),
    ∀ o ∈ (bulletSweep bs obs).2.1, o ∈ obs := by
  intro bs
  induction bs with
  | nil => intro obs o h; simpa [bulletSweep] using h
  | cons b rest ih =>
    intro obs o h
    simp only [bulletSweep] at h
    split_ifs at h
    · exact ih obs o h
    · exact List.mem_of_mem_filter (ih _ o h)

/-- Per-frame movement keeps every obstacle's speed. -/
theorem moveObstacles_speeds (l : List Obstacle) :
    ∀ o' ∈ moveObstacles l, ∃ o ∈ l, o'.speed = o.speed := by
  intro o' h
  have h1 := List.mem_of_mem_filter h
  obtain ⟨o, ho, he⟩ := List.mem_map.mp h1
  exact ⟨o, ho, by rw [← he]; rfl⟩

/-- Bullet-destruction scoring keeps the obstacle list and the ≥ 7 bound. -/
theorem bulletScore_foldl_inv : ∀ (l : List Obstacle) (g : Game),
    (l.foldl Game.bulletHitScore g).obstacles = g.obstacles ∧
    (OBSTACLE_SPEED ≤ g.current_speed →
      OBSTACLE_SPEED ≤ (l.foldl Game.bulletHitScore g).current_speed) := by
  intro l
  induction l with
  | nil => intro g; exact ⟨rfl, fun h => h⟩
  | cons o rest ih =>
    intro g
    simp only [List.foldl_cons]
    obtain ⟨ih1, ih2⟩ := ih (Game.bulletHitScore g o)
    have hb : (Game.bulletHitScore g o).obstacles = g.obstacles ∧
        (OBSTACLE_SPEED ≤ g.current_speed →
          OBSTACLE_SPEED ≤ (Game.bulletHitScore g o).current_speed) := by
      unfold Game.bulletHitScore
      split_ifs
      · exact ⟨(add_score_inv g 1).1, fun _ => (add_score_inv g 1).2⟩
      · exact ⟨rfl, fun h => h⟩
    exact ⟨ih1.trans hb.1, fun h => ih2 (hb.2 h)⟩

/-- Collision resolution preserves the speed invariant. -/
theorem check_collisions_inv (g : Game) :
    SpeedInv g → SpeedInv (Game.check_collisions g) := by
  intro ⟨hobs, hcur⟩
  unfold Game.check_collisions
  dsimp only
  obtain ⟨hf1, hf2⟩ := bulletScore_foldl_inv
    (bulletSweep g.bullets (catCheckCollisions g.cat g.obstacles).2.1).2.2 _
  constructor
  · intro o ho
    rw [hf1] at ho
    have h1 := bulletSweep_mem g.bullets _ o ho
    have h2 : o ∈ (catCheckCollisions g.cat g.obstacles).2.1 := h1
    have h3 : o ∈ g.obstacles := by
      unfold catCheckCollisions at h2
      split_ifs at h2
      · exact h2
      · exact catCollideList_mem g.obstacles g.cat o h2
    exact hobs o h3
  · exact hf2 hcur

/-- The pass-scoring pass preserves the speed invariant. -/
theorem update_score_inv (g : Game) :
    SpeedInv g → SpeedInv (Game.update_score g) := by
  intro ⟨hobs, hcur⟩
  unfold Game.update_score
  dsimp only
  obtain ⟨hs, hm⟩ := updateScoreList_inv g.obstacles g
  constructor
  · intro o ho
    obtain ⟨u, hu, he⟩ := hm o ho
    rw [he]
    exact hobs u hu
  · exact hs hcur

/-- Key handling preserves the speed invariant (a reset reinitializes with
an empty obstacle list and base speed 7). -/
theorem applyAction_inv (A : Assets) (g : Game) (now : Int)
    (a : Option GAction) :
    SpeedInv g → SpeedInv (Game.applyAction A g now a) := by
  intro h
  match a with
  | none => exact h
  | some GAction.jump =>
    unfold Game.applyAction
    split_ifs <;> exact h
  | some GAction.slide =>
    unfold Game.applyAction
    split_ifs <;> exact h
  | some GAction.shoot =>
    unfold Game.applyAction Game.shoot_bullet
    dsimp only
    split_ifs <;> exact h
  | some GAction.reset =>
    unfold Game.applyAction Game.reset Game.init
    split_ifs <;> first
      | exact h
      | exact ⟨by intro o ho; simp at ho, le_refl _⟩

/-- A spawn gives the new obstacle speed `current_speed + jitter`, which the
jitter bound keeps at or above `OBSTACLE_SPEED - 1/2`. -/
theorem spawn_obstacle_inv (g : Game) (now : Int) (d : SpawnData)
    (hj : mkRat (-1) 2 ≤ d.jitter ∧ d.jitter ≤ mkRat 1 2) :
    SpeedInv g → SpeedInv (Game.spawn_obstacle g now d) := by
  intro ⟨hobs, hcur⟩
  unfold Game.spawn_obstacle
  split_ifs
  · refine ⟨?_, hcur⟩
    intro o ho
    rcases List.mem_append.mp ho with h | h
    · exact hobs o h
    · have he : o =
          ⟨d.type, d.rect, qAdd g.current_speed d.jitter, false⟩ := by
        simpa using h
      rw [he]
      show OBSTACLE_SPEED - 1/2 ≤ qAdd g.current_speed d.jitter
      rw [qAdd_eq]
      have hjl : (-(1/2) : ℚ) ≤ d.jitter := by
        have := hj.1
        rw [Rat.mkRat_eq_div] at this
        push_cast at this
        linarith
      linarith
  · exact ⟨hobs, hcur⟩

/-- One frame of the main loop preserves the speed invariant. -/
theorem frame_inv (A : Assets) (g : Game) (i : FrameInput)
    (hv : ValidInput i) : SpeedInv g → SpeedInv (Game.frame A g i) := by
  intro h
  unfold Game.frame
  dsimp only
  have h1 := applyAction_inv A g i.now i.action h
  split_ifs
  · exact h1
  · apply update_score_inv
    apply check_collisions_inv
    have h2 := spawn_obstacle_inv _ i.now i.spawn hv h1
    obtain ⟨h2o, h2c⟩ := h2
    constructor
    · intro o ho
      obtain ⟨u, hu, he⟩ := moveObstacles_speeds _ o ho
      rw [he]
      exact h2o u hu
    · exact h2c

/-- Folding frames preserves the speed invariant. -/
theorem run_inv : ∀ (l : List FrameInput) (A : Assets) (g : Game),
    ValidInputs l → SpeedInv g → SpeedInv (Game.run A g l) := by
  intro l
  induction l with
  | nil => intro A g _ h; exact h
  | cons i rest ih =>
    intro A g hv h
    have hv1 : ValidInput i := hv i (List.mem_cons_self i rest)
    have hvr : ValidInputs rest := fun j hj => hv j (List.mem_cons_of_mem i hj)
    exact ih A (Game.frame A g i) hvr (frame_inv A g i hv1 h)

/-- C5 (corrected).  Along any run with in-range spawn jitters, every live
obstacle's speed is at least the base difficulty speed *at its spawn time*
minus the jitter bound — hence at least the initial base speed 7 minus 0.5,
since the base speed only grows.  An obstacle's speed is fixed at spawn, so
the bound relative to the *current* base speed claimed by the spec fails
once the difficulty has increased (see the counterexample). -/
theorem obstacle_speed_spawn_bound :
    ∀ (A : Assets) (stored : Nat) (t0 : Int) (l : List FrameInput),
      ValidInputs l →
      ∀ o ∈ (Game.run A (Game.init A stored t0) l).obstacles,
        OBSTACLE_SPEED - 1/2 ≤ o.speed := by
  intro A stored t0 l hv
  have hinit : SpeedInv (Game.init A stored t0) := by
    constructor
    · intro o ho
      simp [Game.init] at ho
    · exact le_refl _
  exact (run_inv l A (Game.init A stored t0) hv hinit).1

theorem obstacle_speed_spawn_bound_witness :
    ValidInputs w5trace ∧
    OBSTACLE_SPEED - 1/2 ≤ w5obstacle.speed :=
  ⟨by decide,
    obstacle_speed_spawn_bound testAssets 0 0 w5trace (by decide) w5obstacle
      (by decide)⟩

set_option maxRecDepth 100000 in
/-- C4 counterexample.  A full 210-frame run (stored high score 3 at
startup; five balloons spawn and are passed, score 5; then a stone collides
with the grounded cat): the round is in the game-over state with the score
exceeding the stored high score, yet the store still holds 3 — nothing was
persisted at game-over entry, contrary to the claim. -/
theorem gameover_leaves_stored_high_score_counterexample :
    c4world.game_over = true ∧
    c4world.score = 5 ∧
    c4world.high_score = 3 ∧
    c4world.stored_high_score = 3 ∧
    ¬(c4world.stored_high_score = c4world.score) := by
  refine ⟨by decide, by decide, by decide, by decide, by decide⟩

set_option maxRecDepth 100000 in
/-- C5 counterexample.  A full 116-frame run with all spawn jitters at the
allowed −0.5: ten balloons spawn at speed 6.5, all pass the cat (score 10),
the base speed recomputes to 7.2, and every one of the ten still-alive
obstacles has speed 6.5 < 7.2 − 0.5 — the claimed invariant against the
*current* base speed is violated (`qSub` is ℚ subtraction, `qSub_eq`). -/
theorem obstacle_speed_below_current_base_counterexample :
    ValidInputs c5steps ∧
    c5world.game_over = false ∧
    (c5world.obstacles.any fun o =>
      decide (o.speed < qSub c5world.current_speed (mkRat 1 2))) = true := by
  refine ⟨by decide, by decide, by decide⟩

end CatGame
